import Mathlib

/-!
Shallow embedding of `NGS-general/SolidDataExtractor/SolidDataExtractor.py`.

Python strings are modelled as Lean `String` (a wrapper around `List Char`);
Python exceptions are modelled by `Except PyErr`; Python `None` by `Option`.
The filesystem-walking parts of `SolidRun.__init__` are not embedded; the
pure row-processing kernel (the `barcodes` logic of lines 99-106) and all
pure classes and functions (`SolidLibrary`, `SolidSample`, `SolidProject`,
`SolidRunInfo`, `SolidRunDefinition.getDataItem`,
`SolidBarcodeStatistics.getDataItem`, `extract_initials`, `extract_prefix`
as `extractPrefix`, `extract_index`, `match` as `matchPattern`) are embedded
from the source.
-/

/-- Python exception kinds that the embedded code can raise or that the
specification names.  `malformedNameError` is the error kind the spec
postulates; the source never defines or raises it. -/
inductive PyErr where
  | indexError
  | valueError
  | attributeError
  | malformedNameError
deriving DecidableEq, Repr

deriving instance DecidableEq for Except

/-- Python `str.isalpha` run at the start of the name: `extract_initials`
(source lines 757-770) collects leading alphabetic characters and stops at
the first non-alphabetic one. -/
def extract_initials (library : String) : String :=
  String.mk (library.data.takeWhile Char.isAlpha)

/-- Python `str(library).rstrip(string.digits)` (source lines 772-777,
function `extract_prefix`): the name with all trailing decimal digits
removed. -/
def extractPrefix (library : String) : String :=
  String.mk (library.data.reverse.dropWhile Char.isDigit).reverse

/-- Source lines 779-794, `extract_index`: reverse the characters, collect
digits until the first non-digit, reverse back: the maximal trailing digit
run, leading zeroes preserved. -/
def extract_index (library : String) : String :=
  String.mk (library.data.reverse.takeWhile Char.isDigit).reverse

/-- Python `s.lstrip('0')`. -/
def lstripZeros (s : String) : String :=
  String.mk (s.data.dropWhile (· == '0'))

/-- Numeric value of a digit string. -/
def digitsToNat (cs : List Char) : Nat :=
  cs.foldl (fun n c => n * 10 + (c.toNat - 48)) 0

/-- Python `int(s)` restricted to the all-digit strings it receives in this
program: `int('')` raises `ValueError`. -/
def pyIntDigits (s : String) : Except PyErr Nat :=
  if s.data = [] then Except.error PyErr.valueError
  else Except.ok (digitsToNat s.data)

/-- Python `s.strip('"')`: surrounding double-quote characters removed. -/
def stripQuotes (s : String) : String :=
  String.mk ((s.data.dropWhile (· == '"')).reverse.dropWhile (· == '"')).reverse

/-- Python `word.startswith(pre)`. -/
def pyStartswith (word pre : String) : Bool :=
  pre.data.isPrefixOf word.data

/-- Python `word.endswith(suf)`. -/
def pyEndswith (word suf : String) : Bool :=
  suf.data.isSuffixOf word.data

/-- Python `s[:-1]`. -/
def pyDropLast (s : String) : String :=
  String.mk s.data.dropLast

/-- Source lines 796-810, function `match`: empty pattern or `'*'` matches
everything; a pattern ending in `'*'` matches words starting with the
pattern minus the star; anything else must match exactly.  (Renamed:
`match` is a Lean keyword.) -/
def matchPattern (pattern word : String) : Bool :=
  if pattern = "" || pattern = "*" then true
  else if pyEndswith pattern "*" then pyStartswith word (pyDropLast pattern)
  else word == pattern

/-- Python list indexing `l[i]`: negative indices count from the end; an
index out of range raises `IndexError`. -/
def pyGet {α : Type} (l : List α) (i : Int) : Except PyErr α :=
  let j : Int := if i < 0 then i + l.length else i
  if j < 0 then Except.error PyErr.indexError
  else
    match l.get? j.toNat with
    | some x => Except.ok x
    | none => Except.error PyErr.indexError

/-- Python `l.index(x)`: the first position of `x`, `ValueError` when `x`
is absent. -/
def listIndex (x : String) : List String → Except PyErr Nat
  | [] => Except.error PyErr.valueError
  | y :: ys =>
    if y = x then Except.ok 0
    else
      match listIndex x ys with
      | Except.error e => Except.error e
      | Except.ok n => Except.ok (n + 1)

/-- Source lines 374-421, class `SolidLibrary`.  The `parent_sample`
back-reference is a navigation-only cycle and is not carried in the
embedding. -/
structure SolidLibrary where
  name : String
  initials : String
  namePrefix : String
  index_as_string : String
  index : Option Nat
  is_barcoded : Bool
  csfasta : Option String
  qual : Option String
deriving DecidableEq, Repr

/-- Source lines 391-414, `SolidLibrary.__init__`: derives `initials`,
`prefix` (here `namePrefix`), `index_as_string` and `index` from the name.
`index = int(index_as_string.lstrip('0'))` raises `ValueError` when the
digit run is non-empty but strips to the empty string. -/
def mkSolidLibrary (name : String) : Except PyErr SolidLibrary :=
  match (if extract_index name = "" then Except.ok none
         else
           match pyIntDigits (lstripZeros (extract_index name)) with
           | Except.error e => Except.error e
           | Except.ok n => Except.ok (some n)) with
  | Except.error e => Except.error e
  | Except.ok index =>
    Except.ok { name := name, initials := extract_initials name,
                namePrefix := extractPrefix name,
                index_as_string := extract_index name, index := index,
                is_barcoded := false, csfasta := none, qual := none }

/-- Source lines 423-465, class `SolidProject` (the fields; parent
references are navigation-only and not carried). -/
structure SolidProject where
  name : String
  libraries : List SolidLibrary
deriving DecidableEq, Repr

/-- Source lines 460-465, `SolidProject.addLibrary`: unconditionally
appends. -/
def SolidProject.addLibrary (p : SolidProject) (library : SolidLibrary) :
    SolidProject :=
  { p with libraries := p.libraries ++ [library] }

/-- Inner loop of `getLibraryNamePattern` (source lines 511-519): walk the
current pattern and the next name over `range(min(len,len))`; on the first
differing position append `'*'` (when the accumulator is shorter than the
name) and break with the new pattern; if the loop exhausts with no
difference the Python code leaves `pattern` unchanged, signalled here by
`none`. -/
def scanCommon (nameLen : Nat) :
    List Char → List Char → List Char → Option (List Char)
  | p :: ps, n :: ns, acc =>
    if p = n then scanCommon nameLen ps ns (acc ++ [p])
    else some (if acc.length < nameLen then acc ++ ['*'] else acc)
  | _, _, _ => none

/-- Outer loop of `getLibraryNamePattern` (source lines 506-520): the first
name seeds the pattern; each later name refines it via `scanCommon`. -/
def patternFold : Option (List Char) → List (List Char) → Option (List Char)
  | pattern, [] => pattern
  | none, name :: rest => patternFold (some name) rest
  | some pattern, name :: rest =>
    match scanCommon name.length pattern name [] with
    | none => patternFold (some pattern) rest
    | some p => patternFold (some p) rest

/-- Source lines 496-520, `SolidProject.getLibraryNamePattern`: `None` for
an empty project. -/
def SolidProject.getLibraryNamePattern (p : SolidProject) : Option String :=
  (patternFold none (p.libraries.map (fun l => l.name.data))).map
    (fun cs => String.mk cs)

/-- Python 2 comparison of `None`/`int` index values: `None` sorts before
every integer. -/
def optNatLe : Option Nat → Option Nat → Bool
  | none, _ => true
  | some _, none => false
  | some m, some n => decide (m ≤ n)

/-- Python 2 tuple comparison of the sort key `(l.prefix, l.index)` used at
source line 337. -/
def libKeyLe (a b : SolidLibrary) : Bool :=
  decide (a.namePrefix < b.namePrefix) ||
    (a.namePrefix == b.namePrefix && optNatLe a.index b.index)

/-- Python `sorted(libs, key=lambda l: (l.prefix, l.index))` (source line
336): a stable sort by the key, modelled by the stable `List.mergeSort`. -/
def sortLibraries (libs : List SolidLibrary) : List SolidLibrary :=
  libs.mergeSort libKeyLe

/-- Source lines 277-372, class `SolidSample` (fields; `parent_run` and the
unused `libraries_dir` and advisory `barcode_stats` are not carried). -/
structure SolidSample where
  name : String
  libraries : List SolidLibrary
  projects : List SolidProject
deriving DecidableEq, Repr

/-- Source lines 294-306, `SolidSample.__init__`. -/
def mkSolidSample (name : String) : SolidSample :=
  { name := name, libraries := [], projects := [] }

/-- Source lines 350-360, `SolidSample.getLibrary`: first stored library
with a matching name, else `None`. -/
def SolidSample.getLibrary (s : SolidSample) (library_name : String) :
    Option SolidLibrary :=
  s.libraries.find? (fun l => l.name == library_name)

/-- Source lines 362-372, `SolidSample.getProject`. -/
def SolidSample.getProject (s : SolidSample) (project_name : String) :
    Option SolidProject :=
  s.projects.find? (fun p => p.name == project_name)

/-- Mutation of the first project in the list with the given name, as
Python's `project.addLibrary(library)` on the object `getProject`
returned. -/
def addToFirstProject (project_name : String) (library : SolidLibrary) :
    List SolidProject → List SolidProject
  | [] => []
  | p :: ps =>
    if p.name == project_name then p.addLibrary library :: ps
    else p :: addToFirstProject project_name library ps

/-- Source lines 315-348, `SolidSample.addLibrary`: fetch or create the
library (a new one is appended and the list re-sorted by
`(prefix, index)`); then fetch or create the project named by the
library's initials and unconditionally append the library to it. -/
def SolidSample.addLibrary (s : SolidSample) (library_name : String) :
    Except PyErr (SolidLibrary × SolidSample) :=
  match (match s.getLibrary library_name with
         | some library => Except.ok (library, s.libraries)
         | none =>
           match mkSolidLibrary library_name with
           | Except.error e => Except.error e
           | Except.ok library =>
             Except.ok (library, sortLibraries (s.libraries ++ [library]))) with
  | Except.error e => Except.error e
  | Except.ok (library, libs) =>
    let projects :=
      match s.getProject library.initials with
      | some _ => addToFirstProject library.initials library s.projects
      | none => s.projects ++ [SolidProject.mk library.initials [library]]
    Except.ok (library, { s with libraries := libs, projects := projects })

/-- A sequence of `addLibrary` calls on one sample. -/
def addLibraries (s : SolidSample) : List String → Except PyErr SolidSample
  | [] => Except.ok s
  | n :: ns =>
    match s.addLibrary n with
    | Except.error e => Except.error e
    | Except.ok (_, s2) => addLibraries s2 ns

/-- Python `run_name.split('_')`: split on every underscore, no collapsing;
the empty string splits to `[""]`. -/
def splitUnderscore : List Char → List (List Char)
  | [] => [[]]
  | c :: cs =>
    if c = '_' then [] :: splitUnderscore cs
    else
      match splitUnderscore cs with
      | [] => [[c]]
      | t :: ts => (c :: t) :: ts

/-- Python `s[a:b]` for `0 ≤ a ≤ b`. -/
def pySlice (s : String) (a b : Nat) : String :=
  String.mk ((s.data.take b).drop a)

/-- Source lines 536-601, class `SolidRunInfo` (the derived fields). -/
structure SolidRunInfo where
  name : String
  id : String
  instrument : String
  datestamp : String
  is_fragment_library : Bool
  is_barcoded_sample : Bool
  flow_cell : Nat
  date : Option String
deriving DecidableEq, Repr

/-- Source lines 554-601, `SolidRunInfo.__init__`: split the run name on
underscores; `data[0]` is the instrument and `data[1]` the datestamp
(`data[1]` raises `IndexError` when there are fewer than two tokens);
`'FRAG'`/`'BC'` tokens set the flags; the flow cell is 2 exactly when the
last token is `'2'`; the id re-joins instrument, datestamp and the marker
suffixes of the set flags; the date is formatted only for an 8-character
datestamp.  (`data[-1]` is modelled by `getLastD`; the list returned by
`splitUnderscore` is never empty, so the default is never used.) -/
def mkSolidRunInfo (run_name : String) : Except PyErr SolidRunInfo :=
  match splitUnderscore run_name.data with
  | [] => Except.error PyErr.indexError
  | [_] => Except.error PyErr.indexError
  | c0 :: c1 :: rest =>
    let data := c0 :: c1 :: rest
    let instrument : String := String.mk c0
    let datestamp : String := String.mk c1
    let is_fragment_library := data.contains "FRAG".data
    let is_barcoded_sample := data.contains "BC".data
    let flow_cell : Nat := if data.getLastD [] = ['2'] then 2 else 1
    let id0 := instrument ++ "_" ++ datestamp
    let id1 := if is_fragment_library then id0 ++ "_FRAG" else id0
    let id2 := if is_barcoded_sample then id1 ++ "_BC" else id1
    let date : Option String :=
      if datestamp.length = 8
      then some (pySlice datestamp 6 8 ++ "/" ++ pySlice datestamp 4 6 ++ "/"
                  ++ pySlice datestamp 2 4)
      else none
    Except.ok { name := run_name, id := id2, instrument := instrument,
                datestamp := datestamp,
                is_fragment_library := is_fragment_library,
                is_barcoded_sample := is_barcoded_sample,
                flow_cell := flow_cell, date := date }

/-- Source lines 625-688, class `SolidRunDefinition`: the header fields and
data rows `populate` read from the file (the file handling itself is not
embedded; a table is any header/rows pair). -/
structure SolidRunDefinition where
  header_fields : List String
  data : List (List String)
deriving DecidableEq, Repr

/-- Source line 649-651, `SolidRunDefinition.nSamples`. -/
def SolidRunDefinition.nSamples (rd : SolidRunDefinition) : Nat :=
  rd.data.length

/-- Source lines 657-667, `SolidRunDefinition.getDataItem`: an absent field
name is caught (`except ValueError`), printed and turned into `None`; the
row/column access itself can raise `IndexError`, which propagates. -/
def SolidRunDefinition.getDataItem (rd : SolidRunDefinition) (field : String)
    (i : Int) : Except PyErr (Option String) :=
  match listIndex field rd.header_fields with
  | Except.error PyErr.valueError => Except.ok none
  | Except.error e => Except.error e
  | Except.ok pos =>
    match pyGet rd.data i with
    | Except.error e => Except.error e
    | Except.ok row =>
      match pyGet row (pos : Int) with
      | Except.error e => Except.error e
      | Except.ok v => Except.ok (some v)

/-- Source lines 690-751, class `SolidBarcodeStatistics`: `header` stays
`None` when `populate` finds no `##` line. -/
structure SolidBarcodeStatistics where
  header : Option (List String)
  data : List (List String)
deriving DecidableEq, Repr

/-- Source lines 733-743, `SolidBarcodeStatistics.getDataItem`: same shape
as the run-definition lookup; on a `None` header the attribute access
`self.header.index` raises `AttributeError` (not caught). -/
def SolidBarcodeStatistics.getDataItem (bs : SolidBarcodeStatistics)
    (field : String) (i : Int) : Except PyErr (Option String) :=
  match bs.header with
  | none => Except.error PyErr.attributeError
  | some hdr =>
    match listIndex field hdr with
    | Except.error PyErr.valueError => Except.ok none
    | Except.error e => Except.error e
    | Except.ok pos =>
      match pyGet bs.data i with
      | Except.error e => Except.error e
      | Except.ok row =>
        match pyGet row (pos : Int) with
        | Except.error e => Except.error e
        | Except.ok v => Except.ok (some v)

/-- Source lines 99-102: the `barcodes` cell of row `i`, with the
`except IndexError` handler that substitutes the empty string. -/
def barcodesField (rd : SolidRunDefinition) (i : Int) :
    Except PyErr (Option String) :=
  match rd.getDataItem "barcodes" i with
  | Except.error PyErr.indexError => Except.ok (some "")
  | r => r

/-- Source line 104, `library_is_barcoded = (barcodes != '' and barcodes)`:
the truthiness of the Python value — `False` exactly when the cell is
`None` or the empty string.  The `strip('"')` on line 106 happens only
after this test, when splitting the barcode list. -/
def libraryIsBarcoded (rd : SolidRunDefinition) (i : Int) :
    Except PyErr Bool :=
  match barcodesField rd i with
  | Except.error e => Except.error e
  | Except.ok none => Except.ok false
  | Except.ok (some s) => Except.ok (s != "")

/-- Concrete library `SolidLibrary('PB1')`. -/
def libPB1 : SolidLibrary :=
  { name := "PB1", initials := "PB", namePrefix := "PB", index_as_string := "1",
    index := some 1, is_barcoded := false, csfasta := none, qual := none }

/-- Concrete library `SolidLibrary('PB12')`. -/
def libPB12 : SolidLibrary :=
  { name := "PB12", initials := "PB", namePrefix := "PB",
    index_as_string := "12", index := some 12, is_barcoded := false,
    csfasta := none, qual := none }

/-- Concrete run-definition table with no `barcodes` column. -/
def rdNoBarcodes : SolidRunDefinition :=
  { header_fields := ["sampleName", "library"], data := [["S1", "PB1"]] }

/-- Concrete run-definition table whose `barcodes` cell holds only quote
characters. -/
def rdQuotesOnly : SolidRunDefinition :=
  { header_fields := ["sampleName", "library", "barcodes"],
    data := [["S1", "PB1", "\"\""]] }

/-- Concrete barcode-statistics table. -/
def bsStats : SolidBarcodeStatistics :=
  { header := some ["Library", "Barcode", "0 Mismatches"],
    data := [["All Beads", "", "100"]] }

/-- Concrete sample holding the single library `PB1` and its project, the
state `SolidSample('S')` reaches after `addLibrary('PB1')`. -/
def samplePB1 : SolidSample :=
  { name := "S", libraries := [libPB1],
    projects := [{ name := "PB", libraries := [libPB1] }] }

/-- The state `samplePB1` reaches after a second `addLibrary('PB1')`: the
library list is unchanged, the project holds the library twice. -/
def samplePB1Twice : SolidSample :=
  { name := "S", libraries := [libPB1],
    projects := [{ name := "PB", libraries := [libPB1, libPB1] }] }

/-- C1 (code_bug evidence): `SolidLibrary.__init__` computes
`int(index_as_string.lstrip('0'))`; for a name whose trailing digit run is
all zeroes the stripped string is empty and `int('')` raises `ValueError`,
so `SolidLibrary('DR00')` crashes instead of yielding index 0 as the spec
demands; for `'DR07'` the index is 7 as both spec and code agree. -/
theorem c1_dr00_valueerror :
    mkSolidLibrary "DR00" = Except.error PyErr.valueError ∧
    mkSolidLibrary "DR07" =
      Except.ok { name := "DR07", initials := "DR", namePrefix := "DR",
                  index_as_string := "07", index := some 7,
                  is_barcoded := false, csfasta := none, qual := none } := by
  constructor
  · decide
  · decide

/-- C2 (code_bug evidence): for a project holding libraries `PB1` and
`PB12`, `getLibraryNamePattern` returns `'PB1'` — not `'PB1*'` — because
the comparison loop only appends `'*'` on a strict character mismatch and
leaves the pattern untouched when one name merely extends the other; the
returned pattern does not even match the member `PB12`, contradicting the
method's own docstring. -/
theorem c2_pattern_missing_star :
    mkSolidLibrary "PB1" = Except.ok libPB1 ∧
    mkSolidLibrary "PB12" = Except.ok libPB12 ∧
    SolidProject.getLibraryNamePattern
      { name := "PB", libraries := [libPB1, libPB12] } = some "PB1" ∧
    matchPattern "PB1" "PB12" = false ∧
    matchPattern "PB1*" "PB12" = true := by
  refine ⟨by decide, by decide, by decide, by decide, by decide⟩

/-- Helper: the empty list is a prefix of every list. -/
theorem nil_isPrefixOf {α : Type} [BEq α] (l : List α) :
    List.isPrefixOf ([] : List α) l = true := by
  cases l <;> rfl

/-- C8: `match(pattern, word)` is true outright for the empty or pure-`*`
pattern; a pattern ending in `*` matches exactly the words starting with
the pattern minus its final star; any other pattern matches only the word
equal to it. -/
theorem c8_match_characterization :
    (∀ pattern word : String,
      (pattern = "" ∨ pattern = "*") → matchPattern pattern word = true) ∧
    (∀ pattern word : String, pyEndswith pattern "*" = true →
      matchPattern pattern word = pyStartswith word (pyDropLast pattern)) ∧
    (∀ pattern word : String, pattern ≠ "" → pyEndswith pattern "*" = false →
      matchPattern pattern word = (word == pattern)) := by
  refine ⟨?_, ?_, ?_⟩
  · rintro pattern word (rfl | rfl) <;> simp [matchPattern]
  · intro pattern word h
    by_cases h0 : pattern = ""
    · subst h0; exact absurd h (by decide)
    by_cases h1 : pattern = "*"
    · subst h1
      have hw : pyStartswith word (pyDropLast "*") = true := by
        show List.isPrefixOf (pyDropLast "*").data word.data = true
        exact nil_isPrefixOf word.data
      simp [matchPattern, hw]
    · simp [matchPattern, h0, h1, h]
  · intro pattern word h0 h2
    have h1 : pattern ≠ "*" := by
      rintro rfl; exact absurd h2 (by decide)
    simp [matchPattern, h0, h1, h2]

/-- C8 witness: the characterization applied at the spec's four examples. -/
theorem c8_match_witness :
    matchPattern "*" "anything" = true ∧
    matchPattern "PB*" "PB12" = pyStartswith "PB12" (pyDropLast "PB*") ∧
    matchPattern "PB1" "PB1" = ("PB1" == "PB1") ∧
    matchPattern "PB*" "QX1" = pyStartswith "QX1" (pyDropLast "PB*") := by
  refine ⟨c8_match_characterization.1 "*" "anything" (Or.inr rfl),
    c8_match_characterization.2.1 "PB*" "PB12" (by decide),
    c8_match_characterization.2.2 "PB1" "PB1" (by decide) (by decide),
    c8_match_characterization.2.1 "PB*" "QX1" (by decide)⟩

/-- C6: the prefix and the trailing digit run are a decomposition of every
library name, and a name with no trailing digit gets the empty index
string and `index = None` (construction succeeds). -/
theorem c6_prefix_index_decomposition :
    (∀ name : String, extractPrefix name ++ extract_index name = name) ∧
    (∀ name : String,
      name.data.getLast?.all (fun c => !c.isDigit) = true →
      extract_index name = "" ∧
      mkSolidLibrary name =
        Except.ok { name := name, initials := extract_initials name,
                    namePrefix := extractPrefix name, index_as_string := "",
                    index := none, is_barcoded := false, csfasta := none,
                    qual := none }) := by
  constructor
  · intro name
    obtain ⟨l⟩ := name
    show String.mk ((l.reverse.dropWhile Char.isDigit).reverse
        ++ (l.reverse.takeWhile Char.isDigit).reverse) = String.mk l
    rw [← List.reverse_append, List.takeWhile_append_dropWhile,
      List.reverse_reverse]
  · intro name h
    have hti : name.data.reverse.takeWhile Char.isDigit = [] := by
      cases hr : name.data.reverse with
      | nil => rfl
      | cons c cs =>
        have hlast : name.data.getLast? = some c := by
          rw [← List.head?_reverse, hr]; rfl
        rw [hlast] at h
        simp only [Option.all_some, Bool.not_eq_true'] at h
        simp [List.takeWhile_cons, h]
    have he : extract_index name = "" := by
      show String.mk (name.data.reverse.takeWhile Char.isDigit).reverse = ""
      rw [hti]; rfl
    refine ⟨he, ?_⟩
    simp [mkSolidLibrary, he]

/-- C6 witness: the decomposition at `'LD_C1'` and the no-trailing-digit
case at `'CW_TI'`. -/
theorem c6_decomposition_witness :
    extractPrefix "LD_C1" ++ extract_index "LD_C1" = "LD_C1" ∧
    (extract_index "CW_TI" = "" ∧
      mkSolidLibrary "CW_TI" =
        Except.ok { name := "CW_TI", initials := extract_initials "CW_TI",
                    namePrefix := extractPrefix "CW_TI", index_as_string := "",
                    index := none, is_barcoded := false, csfasta := none,
                    qual := none }) :=
  ⟨c6_prefix_index_decomposition.1 "LD_C1",
    c6_prefix_index_decomposition.2 "CW_TI" (by decide)⟩

/-- C3 counterexample: parsing the single-token run name `'solid0123'`
fails with a plain `IndexError` (from `data[1]`), not with the distinct
`MalformedNameError` the claim requires. -/
theorem c3_counterexample_indexerror :
    mkSolidRunInfo "solid0123" = Except.error PyErr.indexError ∧
    mkSolidRunInfo "solid0123" ≠ Except.error PyErr.malformedNameError := by
  constructor
  · decide
  · decide

/-- C3 amended: a run name with fewer than two underscore-separated tokens
makes `SolidRunInfo.__init__` raise the generic `IndexError` at `data[1]`;
no input ever produces a `MalformedNameError` (the source defines no such
error). -/
theorem c3_short_name_indexerror :
    (∀ name : String, (splitUnderscore name.data).length < 2 →
      mkSolidRunInfo name = Except.error PyErr.indexError) ∧
    (∀ name : String,
      mkSolidRunInfo name ≠ Except.error PyErr.malformedNameError) := by
  constructor
  · intro name h
    cases hs : splitUnderscore name.data with
    | nil => simp [mkSolidRunInfo, hs]
    | cons a t =>
      cases t with
      | nil => simp [mkSolidRunInfo, hs]
      | cons b t2 =>
        rw [hs] at h; simp only [List.length_cons] at h; omega
  · intro name
    cases hs : splitUnderscore name.data with
    | nil => simp [mkSolidRunInfo, hs]
    | cons a t =>
      cases t with
      | nil => simp [mkSolidRunInfo, hs]
      | cons b t2 => simp [mkSolidRunInfo, hs]

/-- C3 witness: the amended statement applied at the underscore-free name
`'FRAGBC'` and at a well-formed name. -/
theorem c3_short_name_witness :
    mkSolidRunInfo "FRAGBC" = Except.error PyErr.indexError ∧
    mkSolidRunInfo "solid0123_20130426" ≠
      Except.error PyErr.malformedNameError :=
  ⟨c3_short_name_indexerror.1 "FRAGBC" (by decide),
    c3_short_name_indexerror.2 "solid0123_20130426"⟩

/-- Helper: `list.index` raises `ValueError` exactly for absent values. -/
theorem listIndex_not_mem {x : String} :
    ∀ {l : List String}, x ∉ l → listIndex x l = Except.error PyErr.valueError := by
  intro l
  induction l with
  | nil => intro _; rfl
  | cons y ys ih =>
    intro h
    have hy : ¬ y = x := fun e => h (e ▸ List.mem_cons_self y ys)
    have hys : x ∉ ys := fun m => h (List.mem_cons_of_mem y m)
    simp [listIndex, hy, ih hys]

/-- Helper: `list.index` succeeds for present values. -/
theorem listIndex_mem {x : String} :
    ∀ {l : List String}, x ∈ l → ∃ pos, listIndex x l = Except.ok pos := by
  intro l
  induction l with
  | nil => intro h; cases h
  | cons y ys ih =>
    intro h
    by_cases hy : y = x
    · exact ⟨0, by simp [listIndex, hy]⟩
    · have hm : x ∈ ys := by
        cases h with
        | head => exact absurd rfl hy
        | tail _ m => exact m
      obtain ⟨pos, hp⟩ := ih hm
      exact ⟨pos + 1, by simp [listIndex, hy, hp]⟩

/-- Helper: a Python index at or past the length raises `IndexError`. -/
theorem pyGet_ge {α : Type} (l : List α) (i : Int) (h : (l.length : Int) ≤ i) :
    pyGet l i = Except.error PyErr.indexError := by
  have h0 : ¬ i < 0 := by omega
  have hlen : l.length ≤ i.toNat := by omega
  simp [pyGet, h0, List.getElem?_eq_none hlen]

/-- Helper: a Python index below `-len` raises `IndexError`. -/
theorem pyGet_neg {α : Type} (l : List α) (i : Int)
    (h : i + (l.length : Int) < 0) :
    pyGet l i = Except.error PyErr.indexError := by
  have h0 : i < 0 := by omega
  have h1 : i + (l.length : Int) < 0 := h
  simp [pyGet, h0, h1]

/-- C4 counterexample: on a table without a `barcodes` column,
`getDataItem('barcodes', 0)` silently returns `None` (after printing)
instead of failing with a `FieldNotFoundError`; and the out-of-range row
index `-1` silently returns the last row's item instead of failing with an
`IndexOutOfRangeError`. -/
theorem c4_counterexample_silent_none :
    rdNoBarcodes.getDataItem "barcodes" 0 = Except.ok none ∧
    rdNoBarcodes.getDataItem "library" (-1) = Except.ok (some "PB1") := by
  constructor
  · decide
  · decide

/-- C4 amended: for both table wrappers, a field name absent from the
header makes `getDataItem` print a warning and return `None` (no error);
a row index at or past `rowCount()`, or below `-rowCount()`, raises the
generic `IndexError`; (indices in `[-rowCount(), -1]` wrap around
Python-style, as the counterexample shows). -/
theorem c4_dataitem_behaviour :
    (∀ (rd : SolidRunDefinition) (field : String) (i : Int),
      field ∉ rd.header_fields → rd.getDataItem field i = Except.ok none) ∧
    (∀ (rd : SolidRunDefinition) (field : String) (i : Int),
      field ∈ rd.header_fields → (rd.data.length : Int) ≤ i →
      rd.getDataItem field i = Except.error PyErr.indexError) ∧
    (∀ (rd : SolidRunDefinition) (field : String) (i : Int),
      field ∈ rd.header_fields → i + (rd.data.length : Int) < 0 →
      rd.getDataItem field i = Except.error PyErr.indexError) ∧
    (∀ (bs : SolidBarcodeStatistics) (hdr : List String) (field : String)
      (i : Int), bs.header = some hdr → field ∉ hdr →
      bs.getDataItem field i = Except.ok none) ∧
    (∀ (bs : SolidBarcodeStatistics) (hdr : List String) (field : String)
      (i : Int), bs.header = some hdr → field ∈ hdr →
      (bs.data.length : Int) ≤ i →
      bs.getDataItem field i = Except.error PyErr.indexError) ∧
    (∀ (bs : SolidBarcodeStatistics) (hdr : List String) (field : String)
      (i : Int), bs.header = some hdr → field ∈ hdr →
      i + (bs.data.length : Int) < 0 →
      bs.getDataItem field i = Except.error PyErr.indexError) := by
  refine ⟨?_, ?_, ?_, ?_, ?_, ?_⟩
  · intro rd field i h
    simp [SolidRunDefinition.getDataItem, listIndex_not_mem h]
  · intro rd field i h hi
    obtain ⟨pos, hp⟩ := listIndex_mem h
    simp [SolidRunDefinition.getDataItem, hp, pyGet_ge rd.data i hi]
  · intro rd field i h hi
    obtain ⟨pos, hp⟩ := listIndex_mem h
    simp [SolidRunDefinition.getDataItem, hp, pyGet_neg rd.data i hi]
  · intro bs hdr field i hh h
    simp [SolidBarcodeStatistics.getDataItem, hh, listIndex_not_mem h]
  · intro bs hdr field i hh h hi
    obtain ⟨pos, hp⟩ := listIndex_mem h
    simp [SolidBarcodeStatistics.getDataItem, hh, hp, pyGet_ge bs.data i hi]
  · intro bs hdr field i hh h hi
    obtain ⟨pos, hp⟩ := listIndex_mem h
    simp [SolidBarcodeStatistics.getDataItem, hh, hp, pyGet_neg bs.data i hi]

/-- C4 witness: the amended behaviour at concrete tables. -/
theorem c4_dataitem_witness :
    rdNoBarcodes.getDataItem "zzz" 0 = Except.ok none ∧
    rdNoBarcodes.getDataItem "library" 5 = Except.error PyErr.indexError ∧
    rdNoBarcodes.getDataItem "library" (-2) = Except.error PyErr.indexError ∧
    bsStats.getDataItem "zzz" 0 = Except.ok none ∧
    bsStats.getDataItem "Library" 1 = Except.error PyErr.indexError ∧
    bsStats.getDataItem "Library" (-2) = Except.error PyErr.indexError :=
  ⟨c4_dataitem_behaviour.1 rdNoBarcodes "zzz" 0 (by decide),
    c4_dataitem_behaviour.2.1 rdNoBarcodes "library" 5 (by decide) (by decide),
    c4_dataitem_behaviour.2.2.1 rdNoBarcodes "library" (-2) (by decide)
      (by decide),
    c4_dataitem_behaviour.2.2.2.1 bsStats _ "zzz" 0 rfl (by decide),
    c4_dataitem_behaviour.2.2.2.2.1 bsStats _ "Library" 1 rfl (by decide)
      (by decide),
    c4_dataitem_behaviour.2.2.2.2.2 bsStats _ "Library" (-2) rfl (by decide)
      (by decide)⟩

/-- C5 counterexample: a `barcodes` cell holding only quote characters
(`'""'`) trims to the empty string, yet the row is marked barcoded — the
code tests emptiness before `strip('"')`, not after. -/
theorem c5_counterexample_quotes_barcoded :
    libraryIsBarcoded rdQuotesOnly 0 = Except.ok true ∧
    stripQuotes "\"\"" = "" := by
  constructor
  · decide
  · decide

/-- C5 amended: a row's library is marked barcoded iff the `barcodes`
lookup (with its `IndexError` handler) yields a present (non-`None`),
non-empty string — the test happens before any quote trimming; a `None`
cell (absent column) yields not-barcoded. -/
theorem c5_barcoded_before_trimming :
    ∀ (rd : SolidRunDefinition) (i : Int),
      (libraryIsBarcoded rd i = Except.ok true ↔
        ∃ s, barcodesField rd i = Except.ok (some s) ∧ s ≠ "") ∧
      (barcodesField rd i = Except.ok none →
        libraryIsBarcoded rd i = Except.ok false) := by
  intro rd i
  cases hb : barcodesField rd i with
  | error e => simp [libraryIsBarcoded, hb]
  | ok v =>
    cases v with
    | none => simp [libraryIsBarcoded, hb]
    | some s => simp [libraryIsBarcoded, hb]

/-- C5 witness: the amended statement at the quote-only table and at the
table with no `barcodes` column. -/
theorem c5_barcoded_witness :
    (libraryIsBarcoded rdQuotesOnly 0 = Except.ok true ↔
      ∃ s, barcodesField rdQuotesOnly 0 = Except.ok (some s) ∧ s ≠ "") ∧
    (barcodesField rdNoBarcodes 0 = Except.ok none →
      libraryIsBarcoded rdNoBarcodes 0 = Except.ok false) :=
  ⟨(c5_barcoded_before_trimming rdQuotesOnly 0).1,
    (c5_barcoded_before_trimming rdNoBarcodes 0).2⟩

/-- Helper: on a non-empty list `getLast?` returns the `getLastD` value. -/
theorem getLast?_cons_getLastD {α : Type} (a : α) (l : List α) (d : α) :
    (a :: l).getLast? = some ((a :: l).getLastD d) := by
  obtain ⟨x, hx⟩ := Option.isSome_iff_exists.mp
    (List.getLast?_isSome.mpr (List.cons_ne_nil a l))
  rw [List.getLastD_eq_getLast?, hx]
  rfl

/-- C9: the worked example `solid0123_20130426_FRAG_BC_2` parses to the
fields of the spec, and in general the flow cell is 2 exactly when the
last underscore token is `'2'`, the id is the instrument and datestamp
followed by `_FRAG`/`_BC` only for set flags, and the date is set exactly
when the datestamp has 8 characters. -/
theorem c9_runinfo_fields :
    (mkSolidRunInfo "solid0123_20130426_FRAG_BC_2" =
      Except.ok { name := "solid0123_20130426_FRAG_BC_2",
                  id := "solid0123_20130426_FRAG_BC",
                  instrument := "solid0123", datestamp := "20130426",
                  is_fragment_library := true, is_barcoded_sample := true,
                  flow_cell := 2, date := some "26/04/13" }) ∧
    (∀ (name : String) (info : SolidRunInfo),
      mkSolidRunInfo name = Except.ok info →
      (info.flow_cell =
        if (splitUnderscore name.data).getLast? = some ['2'] then 2 else 1) ∧
      info.id = info.instrument ++ "_" ++ info.datestamp
        ++ (if info.is_fragment_library then "_FRAG" else "")
        ++ (if info.is_barcoded_sample then "_BC" else "") ∧
      (info.date.isSome = true ↔ info.datestamp.length = 8)) := by
  constructor
  · decide
  · intro name info h
    cases hs : splitUnderscore name.data with
    | nil => simp [mkSolidRunInfo, hs] at h
    | cons c0 t =>
      cases t with
      | nil => simp [mkSolidRunInfo, hs] at h
      | cons c1 rest =>
        simp only [mkSolidRunInfo, hs, Except.ok.injEq] at h
        subst h
        refine ⟨?_, ?_, ?_⟩
        · dsimp only
          rw [getLast?_cons_getLastD c0 (c1 :: rest) []]
          simp only [Option.some.injEq]
        · dsimp only
          split
          · split
            · rw [String.append_assoc, String.append_assoc]
            · rw [String.append_empty]
          · split
            · rw [String.append_empty]
            · rw [String.append_empty, String.append_empty]
        · dsimp only
          by_cases hlen : (String.mk c1).length = 8
          · simp [hlen]
          · simp [hlen]

/-- C9 witness: the general clauses applied at the short name `a_b`. -/
theorem c9_runinfo_witness :
    ({ name := "a_b", id := "a_b", instrument := "a", datestamp := "b",
       is_fragment_library := false, is_barcoded_sample := false,
       flow_cell := 1, date := none } : SolidRunInfo).flow_cell =
      (if (splitUnderscore "a_b".data).getLast? = some ['2'] then 2 else 1) :=
  (c9_runinfo_fields.2 "a_b"
    { name := "a_b", id := "a_b", instrument := "a", datestamp := "b",
      is_fragment_library := false, is_barcoded_sample := false,
      flow_cell := 1, date := none } (by decide)).1

/-- Helper: the index order is total. -/
theorem optNatLe_total (x y : Option Nat) :
    (optNatLe x y || optNatLe y x) = true := by
  cases x with
  | none => simp [optNatLe]
  | some m =>
    cases y with
    | none => simp [optNatLe]
    | some n =>
      simp only [optNatLe, Bool.or_eq_true, decide_eq_true_eq]
      exact Nat.le_total m n

/-- Helper: the index order is transitive. -/
theorem optNatLe_trans {x y z : Option Nat} (h1 : optNatLe x y = true)
    (h2 : optNatLe y z = true) : optNatLe x z = true := by
  cases x with
  | none => simp [optNatLe]
  | some m =>
    cases y with
    | none => simp [optNatLe] at h1
    | some n =>
      cases z with
      | none => simp [optNatLe] at h2
      | some k =>
        simp only [optNatLe, decide_eq_true_eq] at h1 h2 ⊢
        omega

/-- Helper: the sort key order of `(prefix, index)` is total. -/
theorem libKeyLe_total (a b : SolidLibrary) :
    (libKeyLe a b || libKeyLe b a) = true := by
  rcases lt_trichotomy a.namePrefix b.namePrefix with h | h | h
  · simp [libKeyLe, h]
  · simp only [libKeyLe, h, lt_self_iff_false, decide_False, beq_self_eq_true,
      Bool.true_and, Bool.false_or]
    exact optNatLe_total a.index b.index
  · simp [libKeyLe, h]

/-- Helper: the sort key order of `(prefix, index)` is transitive. -/
theorem libKeyLe_trans (a b c : SolidLibrary) (h1 : libKeyLe a b)
    (h2 : libKeyLe b c) : libKeyLe a c := by
  simp only [libKeyLe, Bool.or_eq_true, Bool.and_eq_true, decide_eq_true_eq,
    beq_iff_eq] at h1 h2 ⊢
  rcases h1 with h1 | ⟨h1e, h1i⟩
  · rcases h2 with h2 | ⟨h2e, h2i⟩
    · exact Or.inl (lt_trans h1 h2)
    · exact Or.inl (h2e ▸ h1)
  · rcases h2 with h2 | ⟨h2e, h2i⟩
    · exact Or.inl (h1e ▸ h2)
    · exact Or.inr ⟨h1e.trans h2e, optNatLe_trans h1i h2i⟩

/-- Helper: one `addLibrary` call keeps the library list sorted by
`(prefix, index)`: an existing name leaves the list untouched, a new one
is appended and the whole list re-sorted. -/
theorem addLibrary_sorted {s : SolidSample} {n : String} {lib : SolidLibrary}
    {s2 : SolidSample}
    (hs : List.Pairwise (fun a b => libKeyLe a b = true) s.libraries)
    (h : s.addLibrary n = Except.ok (lib, s2)) :
    List.Pairwise (fun a b => libKeyLe a b = true) s2.libraries := by
  cases hg : s.getLibrary n with
  | some l =>
    simp only [SolidSample.addLibrary, hg, Except.ok.injEq, Prod.mk.injEq] at h
    obtain ⟨-, h2⟩ := h
    rw [← h2]
    exact hs
  | none =>
    cases hm : mkSolidLibrary n with
    | error e => simp [SolidSample.addLibrary, hg, hm] at h
    | ok l =>
      simp only [SolidSample.addLibrary, hg, hm, Except.ok.injEq,
        Prod.mk.injEq] at h
      obtain ⟨-, h2⟩ := h
      rw [← h2]
      exact List.sorted_mergeSort libKeyLe_trans libKeyLe_total
        (s.libraries ++ [l])

/-- Helper: every state reached by a sequence of `addLibrary` calls from a
sorted state keeps the library list sorted. -/
theorem addLibraries_sorted :
    ∀ (names : List String) (s s2 : SolidSample),
      List.Pairwise (fun a b => libKeyLe a b = true) s.libraries →
      addLibraries s names = Except.ok s2 →
      List.Pairwise (fun a b => libKeyLe a b = true) s2.libraries := by
  intro names
  induction names with
  | nil =>
    intro s s2 hs h
    simp only [addLibraries, Except.ok.injEq] at h
    rw [← h]
    exact hs
  | cons n ns ih =>
    intro s s2 hs h
    simp only [addLibraries] at h
    cases ha : s.addLibrary n with
    | error e => rw [ha] at h; cases h
    | ok p =>
      obtain ⟨lib, s3⟩ := p
      rw [ha] at h
      exact ih s3 s2 (addLibrary_sorted hs ha) h

/-- C7: after every sequence of `addLibrary` calls on a fresh sample the
library list is sorted by the key `(prefix, index)`, and re-adding an
already stored library name returns the stored `SolidLibrary` and leaves
the library list unchanged (no duplicate inserted). -/
theorem c7_sorted_and_unique :
    (∀ (sample_name : String) (names : List String) (s : SolidSample),
      addLibraries (mkSolidSample sample_name) names = Except.ok s →
      List.Pairwise (fun a b => libKeyLe a b = true) s.libraries) ∧
    (∀ (s : SolidSample) (name : String) (lib : SolidLibrary),
      s.getLibrary name = some lib →
      ∃ s2, s.addLibrary name = Except.ok (lib, s2) ∧
        s2.libraries = s.libraries) := by
  constructor
  · intro sn names s h
    exact addLibraries_sorted names (mkSolidSample sn) s (by
      simp [mkSolidSample]) h
  · intro s name lib hg
    refine ⟨{ s with projects :=
      match s.getProject lib.initials with
      | some _ => addToFirstProject lib.initials lib s.projects
      | none => s.projects ++ [SolidProject.mk lib.initials [lib]] }, ?_, rfl⟩
    simp only [SolidSample.addLibrary, hg]

/-- C7 witness: re-adding `PB1` to the sample already holding it returns
the stored library and an unchanged library list. -/
theorem c7_sorted_witness :
    ∃ s2, samplePB1.addLibrary "PB1" = Except.ok (libPB1, s2) ∧
      s2.libraries = samplePB1.libraries :=
  c7_sorted_and_unique.2 samplePB1 "PB1" libPB1 (by decide)

/-- Helper: appending a library to the first project with a given name
changes exactly that project's member list. -/
theorem find?_addToFirstProject {pname : String} {lib : SolidLibrary} :
    ∀ {ps : List SolidProject} {p : SolidProject},
      ps.find? (fun q => q.name == pname) = some p →
      (addToFirstProject pname lib ps).find? (fun q => q.name == pname) =
        some { name := p.name, libraries := p.libraries ++ [lib] } := by
  intro ps
  induction ps with
  | nil => intro p h; simp at h
  | cons q qs ih =>
    intro p h
    cases hq : (q.name == pname) with
    | true =>
      rw [List.find?_cons_of_pos qs hq] at h
      injection h with h
      subst h
      simp only [addToFirstProject, hq, if_true]
      exact List.find?_cons_of_pos _ (by simp [SolidProject.addLibrary, hq])
    | false =>
      rw [List.find?_cons_of_neg qs (by simp [hq])] at h
      simp only [addToFirstProject, hq, Bool.false_eq_true, if_false]
      rw [List.find?_cons_of_neg _ (by simp [hq])]
      exact ih h

/-- Helper: the project bookkeeping at the end of `addLibrary`: the project
named by the library's initials ends with the library appended to its
member list, whether the project existed before or was just created. -/
theorem getProject_after_update (s : SolidSample) (lib : SolidLibrary) :
    SolidSample.getProject
      { s with projects :=
          match s.getProject lib.initials with
          | some _ => addToFirstProject lib.initials lib s.projects
          | none => s.projects ++ [SolidProject.mk lib.initials [lib]] }
      lib.initials =
    some { name := lib.initials,
           libraries := (match s.getProject lib.initials with
                         | some p => p.libraries
                         | none => []) ++ [lib] } := by
  cases hp : s.getProject lib.initials with
  | some p =>
    have hp2 : s.projects.find? (fun q => q.name == lib.initials) = some p := hp
    have hname : p.name = lib.initials := by
      have := List.find?_some hp2
      exact eq_of_beq this
    simp only [SolidSample.getProject]
    rw [find?_addToFirstProject hp2, hname]
  | none =>
    have hp2 : s.projects.find? (fun q => q.name == lib.initials) = none := hp
    simp only [SolidSample.getProject]
    rw [List.find?_append, hp2, Option.none_or]
    simp

/-- C10: every successful `addLibrary` call appends the returned library to
the member list of the project named by the library's initials — also when
the library already existed — so adding `PB1` twice leaves one entry in the
sample's library list but two entries in project `PB`. -/
theorem c10_project_double_append :
    (∀ (s : SolidSample) (name : String) (lib : SolidLibrary)
      (s2 : SolidSample),
      s.addLibrary name = Except.ok (lib, s2) →
      s2.getProject lib.initials = some
        { name := lib.initials,
          libraries :=
            (match s.getProject lib.initials with
             | some p => p.libraries
             | none => []) ++ [lib] }) ∧
    (∃ s1 s2,
      (mkSolidSample "S").addLibrary "PB1" = Except.ok (libPB1, s1) ∧
      s1.addLibrary "PB1" = Except.ok (libPB1, s2) ∧
      s2.libraries = [libPB1] ∧
      s2.getProject "PB" =
        some { name := "PB", libraries := [libPB1, libPB1] }) := by
  constructor
  · intro s name lib s2 h
    cases hg : s.getLibrary name with
    | some l =>
      simp only [SolidSample.addLibrary, hg, Except.ok.injEq,
        Prod.mk.injEq] at h
      obtain ⟨h1, h2⟩ := h
      subst h1
      rw [← h2]
      exact getProject_after_update s l
    | none =>
      cases hm : mkSolidLibrary name with
      | error e => simp [SolidSample.addLibrary, hg, hm] at h
      | ok l =>
        simp only [SolidSample.addLibrary, hg, hm, Except.ok.injEq,
          Prod.mk.injEq] at h
        obtain ⟨h1, h2⟩ := h
        subst h1
        rw [← h2]
        exact getProject_after_update s l
  · refine ⟨samplePB1, samplePB1Twice, ?_, ?_, ?_, ?_⟩
    · show Except.ok (libPB1,
        { name := "S", libraries := sortLibraries ([] ++ [libPB1]),
          projects := [SolidProject.mk "PB" [libPB1]] }) =
        Except.ok (libPB1, samplePB1)
      rw [List.nil_append,
        show sortLibraries [libPB1] = [libPB1] from
          List.mergeSort_singleton libPB1]
      rfl
    · decide
    · decide
    · decide

/-- C10 witness: the append-to-project behaviour at the concrete re-add of
`PB1`. -/
theorem c10_project_witness :
    samplePB1Twice.getProject libPB1.initials =
      some { name := libPB1.initials,
             libraries :=
               (match samplePB1.getProject libPB1.initials with
                | some p => p.libraries
                | none => []) ++ [libPB1] } :=
  c10_project_double_append.1 samplePB1 "PB1" libPB1 samplePB1Twice (by decide)
